import Mathlib

/-!
Verification of the `Link` entity of the DTA transportation-network library
(`src/dta/Link.py`), a directed edge between two spatially located nodes.

The embedding follows the Python source closely:
* `Node` is modelled from the spec (the `Node` class itself is an external
  collaborator, `src/dta/Node.py` is not part of the given sources): an
  integer id and planar coordinates, consumed through `getX`, `getY`,
  `getId`, compared by entity equality.
* Python attributes that the base `Link` constructor never initializes (the
  seven extended comparison attributes) are `Option` fields; reading an
  unset attribute raises `AttributeError`, modelled by `pyAttr`.
* Fallible operations return `Except PyError α`; `PyError` distinguishes the
  library's domain error `DtaError` from Python's built-in `TypeError` and
  `AttributeError`.
* Coordinates are rationals (every Python float value is a rational number);
  the derived geometric quantities (Euclidean length, reference angle) live
  in `ℝ`, with `Real.sqrt` and `Real.arccos` for `math.sqrt` / `math.acos`.
-/

/-- Modelled from the spec: the external `Node` collaborator
(`src/dta/Node.py` is not among the given sources).  Per the spec, a node
has an integer id and real-valued planar coordinates `(x, y)`, exposed via
`getX() -> real`, `getY() -> real`, `getId() -> integer`, and nodes are
compared by entity equality. -/
structure Node where
  id : Int
  x : ℚ
  y : ℚ
deriving DecidableEq, Repr

/-- `Node.getId` accessor of the Node capability contract. -/
def Node.getId (n : Node) : Int := n.id

/-- `Node.getX` accessor of the Node capability contract. -/
def Node.getX (n : Node) : ℚ := n.x

/-- `Node.getY` accessor of the Node capability contract. -/
def Node.getY (n : Node) : ℚ := n.y

/-- Errors that can be raised by the modelled code: the library's domain
error `DtaError` (from `dta/DtaError.py`), and Python's built-in
`TypeError` and `AttributeError`. -/
inductive PyError where
  | dtaError (msg : String)
  | typeError (msg : String)
  | attributeError (msg : String)
deriving DecidableEq, Repr

/-- A Python value passed as a `startNode` / `endNode` constructor argument:
either an actual `Node` instance or one of the non-`Node` values the spec
mentions (a plain pair of numbers, `None`). -/
inductive PyObj where
  | node (n : Node)
  | intPair (a b : Int)
  | noneVal
deriving DecidableEq, Repr

/-- `isinstance(obj, Node)` check used by `Link.__init__`. -/
def PyObj.isNode : PyObj → Bool
  | .node _ => true
  | _ => false

/-- Python `str()` of a constructor argument, used in the `%s` formatting of
the `DtaError` messages of `Link.__init__`. -/
def PyObj.str : PyObj → String
  | .node n => "Node " ++ toString n.id
  | .intPair a b => "(" ++ toString a ++ ", " ++ toString b ++ ")"
  | .noneVal => "None"

/-- The state of a constructed `Link` object.  `id` is `self._id` (the
Python id may be `None`), `label` is `self._label`, `startNode` / `endNode`
are `self._startNode` / `self._endNode`.  The seven extended comparison
attributes (`_facilityType`, `_freeflowSpeed`, `_effectiveLengthFactor`,
`_responseTimeFactor`, `_numLanes`, `_roundAbout`, `_level`) are not set by
the base constructor, hence `Option`-valued: `none` means the Python object
lacks the attribute. -/
structure LinkState where
  id : Option Int
  label : String
  startNode : Node
  endNode : Node
  facilityType : Option Int
  freeflowSpeed : Option ℚ
  effectiveLengthFactor : Option ℚ
  responseTimeFactor : Option ℚ
  numLanes : Option Int
  roundAbout : Option Bool
  level : Option Int
deriving DecidableEq, Repr

namespace Link

/-- `Link.DEFAULT_LABEL`: default label is an empty string. -/
def DEFAULT_LABEL : String := ""

/-- `Link.MIN_LENGTH_IN_MILES = 0.004`, a declared constant threshold. -/
def MIN_LENGTH_IN_MILES : ℚ := 4 / 1000

/-- The label resolution of `Link.__init__`: `if label: self._label = label
else: self._label = Link.DEFAULT_LABEL`.  The argument is `None` or a
string; Python truthiness of a string is non-emptiness. -/
def resolveLabel : Option String → String
  | none => DEFAULT_LABEL
  | some s => if s = "" then DEFAULT_LABEL else s

/-- Which attributes of the new object have already been assigned at the
moment `Link.__init__` raises (the source assigns `self._id`, then
`self._label`, then validates `startNode`, then `endNode`, and only then
assigns `self._startNode` and `self._endNode`). -/
structure InitFields where
  idSet : Bool
  labelSet : Bool
  startNodeSet : Bool
  endNodeSet : Bool
deriving DecidableEq, Repr

/-- `Link.__init__(id_, startNode, endNode, label)`.  Mirrors the source
order: assign `self._id`; resolve and assign `self._label`; raise
`DtaError` if `startNode` is not a `Node`; raise `DtaError` if `endNode`
is not a `Node`; assign both endpoint references.  On failure the result
records the error together with the `InitFields` trace of the attributes
that had already been assigned when the exception was raised. -/
def init (id_ : Option Int) (startNode endNode : PyObj) (label : Option String) :
    Except (PyError × InitFields) LinkState :=
  match startNode with
  | .node sn =>
    match endNode with
    | .node en =>
      .ok ⟨id_, resolveLabel label, sn, en, none, none, none, none, none, none, none⟩
    | other =>
      .error (.dtaError ("Initializing Link with non-Node endNode: " ++ other.str),
              ⟨true, true, false, false⟩)
  | other =>
    .error (.dtaError ("Initializing Link with non-Node startNode: " ++ other.str),
            ⟨true, true, false, false⟩)

/-- `Link.getStartNode`. -/
def getStartNode (l : LinkState) : Node := l.startNode

/-- `Link.getEndNode`. -/
def getEndNode (l : LinkState) : Node := l.endNode

/-- `Link.getId`. -/
def getId (l : LinkState) : Option Int := l.id

/-- `Link.getStartNodeId`. -/
def getStartNodeId (l : LinkState) : Int := (getStartNode l).getId

/-- `Link.getEndNodeId`. -/
def getEndNodeId (l : LinkState) : Int := (getEndNode l).getId

/-- `Link.getIid`: the pair of start and end node ids. -/
def getIid (l : LinkState) : Int × Int :=
  ((getStartNode l).getId, (getEndNode l).getId)

/-- `Link.setLabel`: `self._label = label`, unconditional. -/
def setLabel (l : LinkState) (label : String) : LinkState :=
  { l with label := label }

/-- `Link.getLabel`. -/
def getLabel (l : LinkState) : String := l.label

/-- `Link.getOtherEnd(node)`.  The source compares `self._startNode == node`
then `self._endNode == node`.  In the final `else` branch the source
executes `raise DtaError(... % (Link.getId(), node.getId()))`: `Link.getId()`
is a call of the method on the class with no instance, which raises
`TypeError` before the `DtaError` can be constructed, so the branch is
modelled as raising that `TypeError`. -/
def getOtherEnd (l : LinkState) (node : Node) : Except PyError Node :=
  if l.startNode = node then .ok l.endNode
  else if l.endNode = node then .ok l.startNode
  else .error (.typeError "getId() missing 1 required positional argument: self")

/-- Python attribute read: `ok` when the attribute is set, `AttributeError`
otherwise. -/
def pyAttr {α : Type} (name : String) : Option α → Except PyError α
  | some v => .ok v
  | none => .error (.attributeError ("Link object has no attribute " ++ name))

/-- The tuple built by the inner `getattrs` helper of
`Link.hasSameAttributes`. -/
abbrev AttrTuple := Int × ℚ × ℚ × ℚ × Int × Bool × Int

/-- The inner `getattrs(link)` of `Link.hasSameAttributes`: reads the seven
extended attributes in source order, raising `AttributeError` at the first
one the object lacks. -/
def getattrs (link : LinkState) : Except PyError AttrTuple := do
  let ft ← pyAttr "_facilityType" link.facilityType
  let fs ← pyAttr "_freeflowSpeed" link.freeflowSpeed
  let elf ← pyAttr "_effectiveLengthFactor" link.effectiveLengthFactor
  let rtf ← pyAttr "_responseTimeFactor" link.responseTimeFactor
  let nl ← pyAttr "_numLanes" link.numLanes
  let ra ← pyAttr "_roundAbout" link.roundAbout
  let lv ← pyAttr "_level" link.level
  return (ft, fs, elf, rtf, nl, ra, lv)

/-- `Link.hasSameAttributes(other)`: builds both attribute tuples via
`getattrs` (self first), then `if attr1 == attr2: return True` /
`return False`. -/
def hasSameAttributes (self other : LinkState) : Except PyError Bool := do
  let attr1 ← getattrs self
  let attr2 ← getattrs other
  return if attr1 = attr2 then true else false

/-- `Link.euclideanLength`:
`sqrt((sx-ex)*(sx-ex) + (sy-ey)*(sy-ey))` over the node coordinates. -/
noncomputable def euclideanLength (l : LinkState) : ℝ :=
  Real.sqrt (((l.startNode.getX : ℝ) - (l.endNode.getX : ℝ)) *
               ((l.startNode.getX : ℝ) - (l.endNode.getX : ℝ)) +
             ((l.startNode.getY : ℝ) - (l.endNode.getY : ℝ)) *
               ((l.startNode.getY : ℝ) - (l.endNode.getY : ℝ)))

/-- `Link.getEuclideanLengthInMiles`: computes `dx1 = endX - startX`,
`dy1 = endY - startY` and returns `sqrt(dx1**2 + dy1**2) / 5280.0`,
independently of `euclideanLength`. -/
noncomputable def getEuclideanLengthInMiles (l : LinkState) : ℝ :=
  Real.sqrt (((l.endNode.getX : ℝ) - (l.startNode.getX : ℝ)) ^ 2 +
             ((l.endNode.getY : ℝ) - (l.startNode.getY : ℝ)) ^ 2) / 5280.0

open Classical

/-- `Link.getReferenceAngle`: returns `0` when `euclideanLength() == 0`
(before any division by the length); otherwise computes
`acos((endX - startX) / euclideanLength())`, an angle in `[0, π]`, and
reflects it to `2π - angle` exactly when `angle > 0` and
`endNode.getY() > startNode.getY()`. -/
noncomputable def getReferenceAngle (l : LinkState) : ℝ :=
  if euclideanLength l = 0 then 0
  else
    let angle := Real.arccos (((l.endNode.getX : ℝ) - (l.startNode.getX : ℝ)) /
                                euclideanLength l)
    if 0 < angle ∧ l.startNode.getY < l.endNode.getY then
      2 * Real.pi - angle
    else angle

/-- `Link.getReferenceAngleInDegrees`:
`self.getReferenceAngle() / math.pi * 180.0`. -/
noncomputable def getReferenceAngleInDegrees (l : LinkState) : ℝ :=
  getReferenceAngle l / Real.pi * 180.0

end Link

/-- Bool-valued precondition of `hasSameAttributes`: the Python object
carries all seven extended comparison attributes. -/
def Link.hasAttrs (l : LinkState) : Bool :=
  l.facilityType.isSome && l.freeflowSpeed.isSome && l.effectiveLengthFactor.isSome &&
  l.responseTimeFactor.isSome && l.numLanes.isSome && l.roundAbout.isSome && l.level.isSome

/-! ### Concrete fixtures used in example conjuncts and witnesses -/

/-- A test node at the origin. -/
def nodeA : Node := ⟨1, 0, 0⟩

/-- A test node at (3, 4). -/
def nodeB : Node := ⟨2, 3, 4⟩

/-- A test node unrelated to the links below. -/
def nodeC : Node := ⟨3, 5, 5⟩

/-- A link from `(sx, sy)` to `(ex, ey)` for the geometric scenarios. -/
def mkLink (sx sy ex ey : ℚ) : LinkState :=
  ⟨some 1, "", ⟨1, sx, sy⟩, ⟨2, ex, ey⟩, none, none, none, none, none, none, none⟩

/-- A link with coincident endpoints. -/
def degenLink : LinkState := mkLink 2 3 2 3

/-- A base link as produced by the constructor (no extended attributes). -/
def baseLink : LinkState :=
  ⟨some 10, "lbl", nodeA, nodeB, none, none, none, none, none, none, none⟩

/-- An extended link carrying all seven comparison attributes. -/
def extLink1 : LinkState :=
  ⟨some 11, "x", nodeA, nodeB, some 4, some 30, some 1, some 1, some 2, some false, some 0⟩

/-- Same seven attributes as `extLink1`, different id, label and endpoints. -/
def extLink2 : LinkState :=
  ⟨some 12, "y", nodeB, nodeC, some 4, some 30, some 1, some 1, some 2, some false, some 0⟩

/-- The state produced by `Link.__init__(1, nodeA, nodeB, "lbl")`. -/
def baseLinkInit : LinkState :=
  ⟨some 1, "lbl", nodeA, nodeB, none, none, none, none, none, none, none⟩

/-- The state produced by `Link.__init__(1, nodeA, nodeB, None)`. -/
def defaultLabelSt : LinkState :=
  ⟨some 1, "", nodeA, nodeB, none, none, none, none, none, none, none⟩

/-- The state produced by `Link.__init__(1, nodeA, nodeB, "x")`. -/
def customLabelSt : LinkState :=
  ⟨some 1, "x", nodeA, nodeB, none, none, none, none, none, none, none⟩

/-- A link whose start node id (5) exceeds its end node id (2). -/
def unsortedLink : LinkState :=
  ⟨some 1, "", ⟨5, 0, 0⟩, ⟨2, 1, 1⟩, none, none, none, none, none, none, none⟩

/-! ### Helper lemmas -/

/-- `getattrs` succeeds with the tuple of attribute values when all seven
attributes are present. -/
lemma getattrs_ok (l : LinkState) (ft : Int) (fs elf rtf : ℚ) (nl : Int) (ra : Bool) (lv : Int)
    (h1 : l.facilityType = some ft) (h2 : l.freeflowSpeed = some fs)
    (h3 : l.effectiveLengthFactor = some elf) (h4 : l.responseTimeFactor = some rtf)
    (h5 : l.numLanes = some nl) (h6 : l.roundAbout = some ra) (h7 : l.level = some lv) :
    Link.getattrs l = .ok (ft, fs, elf, rtf, nl, ra, lv) := by
  rw [Link.getattrs, h1, h2, h3, h4, h5, h6, h7]
  exact rfl

/-- When both tuples are available, `hasSameAttributes` is their tuple
comparison. -/
lemma hasSameAttributes_ok (a b : LinkState) (ta tb : Link.AttrTuple)
    (hga : Link.getattrs a = .ok ta) (hgb : Link.getattrs b = .ok tb) :
    Link.hasSameAttributes a b = .ok (if ta = tb then true else false) := by
  rw [Link.hasSameAttributes, hga, hgb]
  exact rfl

/-! ### Claim theorems -/

/-- C1 (counterexample): constructing a Link with a non-Node `startNode`
(`(1, 2)`, a plain pair of numbers) does raise the `DtaError`, but at the
moment of the raise the `_id` and `_label` attributes of the object have
already been assigned — refuting "before any field of the Link object is
set". -/
theorem C1_counterexample :
    Link.init (some 7) (.intPair 1 2) (.node nodeB) (some "lbl") =
      .error (.dtaError "Initializing Link with non-Node startNode: (1, 2)",
              ⟨true, true, false, false⟩) ∧
    (⟨true, true, false, false⟩ : Link.InitFields).idSet = true ∧
    (⟨true, true, false, false⟩ : Link.InitFields).labelSet = true := by
  exact ⟨rfl, rfl, rfl⟩

/-- C1 (amended): constructing a Link whose `startNode` (or `endNode`) is
not a Node raises the domain error `DtaError` before either endpoint field
is stored (the `_id` and `_label` fields have already been assigned at that
point), so no fully-constructed Link results; when both endpoints are
invalid, the `startNode` failure is reported first — the start-node check
fires for every non-Node `startNode`, regardless of `endNode`, and the
end-node error can only occur when `startNode` is a Node. -/
theorem C1_init_validation (i : Option Int) (s e : PyObj) (lbl : Option String) :
    (s.isNode = false →
      Link.init i s e lbl =
        .error (.dtaError ("Initializing Link with non-Node startNode: " ++ s.str),
                ⟨true, true, false, false⟩)) ∧
    (s.isNode = true → e.isNode = false →
      Link.init i s e lbl =
        .error (.dtaError ("Initializing Link with non-Node endNode: " ++ e.str),
                ⟨true, true, false, false⟩)) ∧
    (∀ err fields, Link.init i s e lbl = .error (err, fields) →
      fields = ⟨true, true, false, false⟩) := by
  refine ⟨?_, ?_, ?_⟩
  · intro hs
    cases s with
    | node sn => simp [PyObj.isNode] at hs
    | intPair a b => rfl
    | noneVal => rfl
  · intro hs he
    cases s with
    | node sn =>
      cases e with
      | node en => simp [PyObj.isNode] at he
      | intPair a b => rfl
      | noneVal => rfl
    | intPair a b => simp [PyObj.isNode] at hs
    | noneVal => simp [PyObj.isNode] at hs
  · intro err fields h
    cases s <;> cases e <;> simp [Link.init] at h
    all_goals exact h.2.symm

/-- C1 (witness): concrete instantiations of `C1_init_validation`: a bad
start node is reported first even when the end node is also invalid, and
the end-node error fires when only the end node is invalid. -/
theorem C1_init_validation_witness :
    Link.init (some 7) (.intPair 1 2) .noneVal (some "x") =
      .error (.dtaError "Initializing Link with non-Node startNode: (1, 2)",
              ⟨true, true, false, false⟩) ∧
    Link.init (some 7) (.node nodeA) .noneVal (some "x") =
      .error (.dtaError "Initializing Link with non-Node endNode: None",
              ⟨true, true, false, false⟩) := by
  exact ⟨(C1_init_validation (some 7) (.intPair 1 2) .noneVal (some "x")).1 rfl,
         (C1_init_validation (some 7) (.node nodeA) .noneVal (some "x")).2.1 rfl rfl⟩

/-- C2: on the link from `nodeA` to `nodeB`, `getOtherEnd` returns the
opposite endpoint for each stored endpoint, but for the unrelated `nodeC`
it raises `TypeError` — not the claimed domain error naming the link and
node — because the source's error path evaluates `Link.getId()` on the
class instead of `self.getId()`. -/
theorem C2_getOtherEnd_behavior :
    Link.getOtherEnd baseLink nodeA = .ok nodeB ∧
    Link.getOtherEnd baseLink nodeB = .ok nodeA ∧
    Link.getOtherEnd baseLink nodeC =
      .error (.typeError "getId() missing 1 required positional argument: self") := by
  exact ⟨rfl, rfl, rfl⟩

/-- C3: `getReferenceAngle` follows the clockwise convention.  For a
nondegenerate link, the angle is `acos(dx/length)` unless that angle is
nonzero and the end node is above the start node, in which case it is
`2π` minus it; with start at the origin, end `(1,0)` gives `0`, end `(0,1)`
gives `3π/2`, end `(0,-1)` gives `π/2`, and end `(-1,0)` gives `π`. -/
theorem C3_reference_angle_convention :
    Link.getReferenceAngle (mkLink 0 0 1 0) = 0 ∧
    Link.getReferenceAngle (mkLink 0 0 0 1) = 3 * Real.pi / 2 ∧
    Link.getReferenceAngle (mkLink 0 0 0 (-1)) = Real.pi / 2 ∧
    Link.getReferenceAngle (mkLink 0 0 (-1) 0) = Real.pi ∧
    (∀ l : LinkState, Link.euclideanLength l ≠ 0 →
      (0 < Real.arccos (((l.endNode.getX : ℝ) - (l.startNode.getX : ℝ)) /
            Link.euclideanLength l) ∧ l.startNode.getY < l.endNode.getY →
        Link.getReferenceAngle l =
          2 * Real.pi - Real.arccos (((l.endNode.getX : ℝ) - (l.startNode.getX : ℝ)) /
            Link.euclideanLength l)) ∧
      (¬(0 < Real.arccos (((l.endNode.getX : ℝ) - (l.startNode.getX : ℝ)) /
            Link.euclideanLength l) ∧ l.startNode.getY < l.endNode.getY) →
        Link.getReferenceAngle l =
          Real.arccos (((l.endNode.getX : ℝ) - (l.startNode.getX : ℝ)) /
            Link.euclideanLength l))) := by
  refine ⟨?_, ?_, ?_, ?_, ?_⟩
  · have hlen : Link.euclideanLength (mkLink 0 0 1 0) = 1 := by
      simp [mkLink, Link.euclideanLength, Node.getX, Node.getY]
    rw [Link.getReferenceAngle, hlen]
    simp [mkLink, Node.getX, Node.getY, Real.arccos_one]
  · have hlen : Link.euclideanLength (mkLink 0 0 0 1) = 1 := by
      simp [mkLink, Link.euclideanLength, Node.getX, Node.getY]
    rw [Link.getReferenceAngle, hlen]
    simp [mkLink, Node.getX, Node.getY, Real.arccos_zero]
    rw [if_pos Real.pi_pos]
    ring
  · have hlen : Link.euclideanLength (mkLink 0 0 0 (-1)) = 1 := by
      simp [mkLink, Link.euclideanLength, Node.getX, Node.getY]
    rw [Link.getReferenceAngle, hlen]
    simp [mkLink, Node.getX, Node.getY, Real.arccos_zero]
  · have hlen : Link.euclideanLength (mkLink 0 0 (-1) 0) = 1 := by
      simp [mkLink, Link.euclideanLength, Node.getX, Node.getY]
    rw [Link.getReferenceAngle, hlen]
    simp [mkLink, Node.getX, Node.getY, Real.arccos_neg_one]
  · intro l hlen
    constructor
    · intro hcond
      rw [Link.getReferenceAngle, if_neg hlen]
      dsimp only
      rw [if_pos hcond]
    · intro hcond
      rw [Link.getReferenceAngle, if_neg hlen]
      dsimp only
      rw [if_neg hcond]

/-- C3 (witness): the general reflection clause of
`C3_reference_angle_convention` instantiated at the link from `(0,0)` to
`(0,1)` (reflected case, hypotheses discharged by evaluation). -/
theorem C3_reference_angle_convention_witness :
    Link.getReferenceAngle (mkLink 0 0 0 1) =
      2 * Real.pi -
        Real.arccos ((((mkLink 0 0 0 1).endNode.getX : ℝ) -
            ((mkLink 0 0 0 1).startNode.getX : ℝ)) /
          Link.euclideanLength (mkLink 0 0 0 1)) := by
  have hlen : Link.euclideanLength (mkLink 0 0 0 1) = 1 := by
    simp [mkLink, Link.euclideanLength, Node.getX, Node.getY]
  have harg : (((mkLink 0 0 0 1).endNode.getX : ℝ) -
      ((mkLink 0 0 0 1).startNode.getX : ℝ)) /
        Link.euclideanLength (mkLink 0 0 0 1) = 0 := by
    rw [hlen]
    simp [mkLink, Node.getX]
  refine (C3_reference_angle_convention.2.2.2.2 (mkLink 0 0 0 1)
      (by rw [hlen]; norm_num)).1 ⟨?_, ?_⟩
  · rw [harg, Real.arccos_zero]
    positivity
  · simp [mkLink, Node.getY]

/-- C4: for every pair of endpoint positions, `getReferenceAngle` is in
`[0, 2π)`; when `euclideanLength()` is `0` it is exactly `0` (the guard
returns before the division by the length, and an angle of exactly `0` is
never reflected to `2π` thanks to the `angle > 0` conjunct). -/
theorem C4_reference_angle_range (l : LinkState) :
    0 ≤ Link.getReferenceAngle l ∧
    Link.getReferenceAngle l < 2 * Real.pi ∧
    (Link.euclideanLength l = 0 → Link.getReferenceAngle l = 0) := by
  have hrange : 0 ≤ Link.getReferenceAngle l ∧ Link.getReferenceAngle l < 2 * Real.pi := by
    rw [Link.getReferenceAngle]
    split
    · exact ⟨le_refl 0, by positivity⟩
    · dsimp only
      set a := Real.arccos (((l.endNode.getX : ℝ) - (l.startNode.getX : ℝ)) /
        Link.euclideanLength l) with ha
      have h0 : 0 ≤ a := Real.arccos_nonneg _
      have h1 : a ≤ Real.pi := Real.arccos_le_pi _
      split
      · rename_i hcond
        exact ⟨by nlinarith [Real.pi_pos], by nlinarith [hcond.1]⟩
      · exact ⟨h0, by nlinarith [Real.pi_pos]⟩
  refine ⟨hrange.1, hrange.2, ?_⟩
  · intro hlen
    rw [Link.getReferenceAngle, if_pos hlen]

/-- C4 (witness): `C4_reference_angle_range` at the link with coincident
endpoints: its reference angle is exactly `0`. -/
theorem C4_reference_angle_range_witness : Link.getReferenceAngle degenLink = 0 := by
  refine (C4_reference_angle_range degenLink).2.2 ?_
  simp [degenLink, mkLink, Link.euclideanLength, Node.getX, Node.getY]

/-- C5: `getEuclideanLengthInMiles()` always equals `euclideanLength() /
5280.0`, although the two methods compute the distance independently (with
the differences taken in opposite orders); for coincident endpoints both
are `0`. -/
theorem C5_length_miles_relation (l : LinkState) :
    Link.getEuclideanLengthInMiles l = Link.euclideanLength l / 5280 ∧
    (l.startNode.getX = l.endNode.getX → l.startNode.getY = l.endNode.getY →
      Link.euclideanLength l = 0 ∧ Link.getEuclideanLengthInMiles l = 0) := by
  have hmain : Link.getEuclideanLengthInMiles l = Link.euclideanLength l / 5280 := by
    rw [Link.getEuclideanLengthInMiles, Link.euclideanLength]
    congr 1
    · congr 1
      ring
    · norm_num
  refine ⟨hmain, ?_⟩
  intro hx hy
  have hzero : Link.euclideanLength l = 0 := by
    rw [Link.euclideanLength, hx, hy]
    simp
  exact ⟨hzero, by rw [hmain, hzero]; norm_num⟩

/-- C5 (witness): `C5_length_miles_relation` at the coincident-endpoint
link: both length queries yield `0`, and the mile conversion relation
holds. -/
theorem C5_length_miles_relation_witness :
    Link.euclideanLength degenLink = 0 ∧
    Link.getEuclideanLengthInMiles degenLink = 0 := by
  exact (C5_length_miles_relation degenLink).2 rfl rfl

/-- C6: when both operands carry all seven extended attributes,
`hasSameAttributes` is reflexive and symmetric, returns `True` exactly when
the seven attributes are pairwise equal, and is unchanged by replacing the
id, label, or endpoints of either operand. -/
theorem C6_hasSameAttributes_equivalence (a b : LinkState)
    (ha : Link.hasAttrs a = true) (hb : Link.hasAttrs b = true) :
    Link.hasSameAttributes a a = .ok true ∧
    Link.hasSameAttributes a b = Link.hasSameAttributes b a ∧
    (Link.hasSameAttributes a b = .ok true ↔
      (a.facilityType = b.facilityType ∧ a.freeflowSpeed = b.freeflowSpeed ∧
       a.effectiveLengthFactor = b.effectiveLengthFactor ∧
       a.responseTimeFactor = b.responseTimeFactor ∧ a.numLanes = b.numLanes ∧
       a.roundAbout = b.roundAbout ∧ a.level = b.level)) ∧
    (∀ (i j : Option Int) (s t : String) (sn en sm em : Node),
      Link.hasSameAttributes
          { a with id := i, label := s, startNode := sn, endNode := en }
          { b with id := j, label := t, startNode := sm, endNode := em }
        = Link.hasSameAttributes a b) := by
  simp only [Link.hasAttrs, Bool.and_eq_true, Option.isSome_iff_exists] at ha hb
  obtain ⟨⟨⟨⟨⟨⟨⟨fta, a1⟩, fsa, a2⟩, elfa, a3⟩, rtfa, a4⟩, nla, a5⟩, raa, a6⟩, lva, a7⟩ := ha
  obtain ⟨⟨⟨⟨⟨⟨⟨ftb, b1⟩, fsb, b2⟩, elfb, b3⟩, rtfb, b4⟩, nlb, b5⟩, rab, b6⟩, lvb, b7⟩ := hb
  have hga := getattrs_ok a fta fsa elfa rtfa nla raa lva a1 a2 a3 a4 a5 a6 a7
  have hgb := getattrs_ok b ftb fsb elfb rtfb nlb rab lvb b1 b2 b3 b4 b5 b6 b7
  refine ⟨?_, ?_, ?_, ?_⟩
  · rw [hasSameAttributes_ok a a _ _ hga hga, if_pos rfl]
  · rw [hasSameAttributes_ok a b _ _ hga hgb, hasSameAttributes_ok b a _ _ hgb hga]
    by_cases h : ((fta, fsa, elfa, rtfa, nla, raa, lva) : Link.AttrTuple)
        = (ftb, fsb, elfb, rtfb, nlb, rab, lvb)
    · rw [if_pos h, if_pos h.symm]
    · rw [if_neg h, if_neg (fun hh => h hh.symm)]
  · rw [hasSameAttributes_ok a b _ _ hga hgb]
    simp [a1, a2, a3, a4, a5, a6, a7, b1, b2, b3, b4, b5, b6, b7, Prod.mk.injEq]
  · intro i j s t sn en sm em
    have e1 : Link.getattrs { a with id := i, label := s, startNode := sn, endNode := en }
        = Link.getattrs a := rfl
    have e2 : Link.getattrs { b with id := j, label := t, startNode := sm, endNode := em }
        = Link.getattrs b := rfl
    rw [Link.hasSameAttributes, Link.hasSameAttributes, e1, e2]

/-- C6 (witness): `C6_hasSameAttributes_equivalence` on two extended links
with the same seven attributes but different ids, labels and endpoints:
the comparison is reflexive and returns `True` across the pair. -/
theorem C6_hasSameAttributes_equivalence_witness :
    Link.hasSameAttributes extLink1 extLink1 = .ok true ∧
    Link.hasSameAttributes extLink1 extLink2 = .ok true := by
  obtain ⟨hrefl, hsymm, hiff, hframe⟩ :=
    C6_hasSameAttributes_equivalence extLink1 extLink2 (by decide) (by decide)
  exact ⟨hrefl, hiff.mpr (by decide)⟩

/-- C7: a base Link (as produced by the constructor, which initializes none
of the seven extended attributes) makes `hasSameAttributes` fail with an
`AttributeError` rather than return a boolean — both when it is the
receiver (the error names `_facilityType`, the first attribute read) and
when it is the argument. -/
theorem C7_hasSameAttributes_missing_attrs (i : Option Int) (s e : PyObj)
    (lbl : Option String) (st : LinkState)
    (h : Link.init i s e lbl = .ok st) (o : LinkState) :
    Link.hasSameAttributes st o =
      .error (.attributeError "Link object has no attribute _facilityType") ∧
    (∀ b : Bool, Link.hasSameAttributes o st ≠ .ok b) := by
  have hft : st.facilityType = none := by
    cases s <;> cases e <;> simp [Link.init] at h
    rw [← h]
  have hgst : Link.getattrs st =
      .error (.attributeError "Link object has no attribute _facilityType") := by
    rw [Link.getattrs, hft]
    exact rfl
  constructor
  · rw [Link.hasSameAttributes, hgst]
    exact rfl
  · intro b hcontra
    rw [Link.hasSameAttributes] at hcontra
    cases hgo : Link.getattrs o with
    | error eo => rw [hgo] at hcontra; exact nomatch hcontra
    | ok tv => rw [hgo, hgst] at hcontra; exact nomatch hcontra

/-- C7 (witness): `C7_hasSameAttributes_missing_attrs` for the link built
by `Link.__init__(1, nodeA, nodeB, "lbl")`, compared against an extended
link in both directions. -/
theorem C7_hasSameAttributes_missing_attrs_witness :
    Link.hasSameAttributes baseLinkInit extLink1 =
      .error (.attributeError "Link object has no attribute _facilityType") ∧
    Link.hasSameAttributes extLink1 baseLinkInit ≠ .ok true := by
  obtain ⟨h1, h2⟩ := C7_hasSameAttributes_missing_attrs (some 1) (.node nodeA)
    (.node nodeB) (some "lbl") baseLinkInit rfl extLink1
  exact ⟨h1, h2 true⟩

/-- C8: `getReferenceAngleInDegrees()` equals
`getReferenceAngle() * 180 / π` for every link (the source computes
`/ math.pi * 180.0`, which is the same real number), and it inherits the
degenerate case: `0` for coincident endpoints. -/
theorem C8_degrees_relation (l : LinkState) :
    Link.getReferenceAngleInDegrees l = Link.getReferenceAngle l * 180 / Real.pi ∧
    (Link.euclideanLength l = 0 → Link.getReferenceAngleInDegrees l = 0) := by
  have hmain : Link.getReferenceAngleInDegrees l =
      Link.getReferenceAngle l * 180 / Real.pi := by
    rw [Link.getReferenceAngleInDegrees]
    ring
  refine ⟨hmain, ?_⟩
  intro hlen
  rw [Link.getReferenceAngleInDegrees, Link.getReferenceAngle, if_pos hlen]
  norm_num

/-- C8 (witness): `C8_degrees_relation` at the coincident-endpoint link:
the angle in degrees is `0`. -/
theorem C8_degrees_relation_witness :
    Link.getReferenceAngleInDegrees degenLink = 0 := by
  refine (C8_degrees_relation degenLink).2 ?_
  simp [degenLink, mkLink, Link.euclideanLength, Node.getX, Node.getY]

/-- C9: `getIid()` returns exactly the ordered pair of the start and end
node ids, agreeing with `getStartNodeId()` and `getEndNodeId()`; the pair
preserves start-before-end order even when the start id exceeds the end id
(the fixture has start id `5` and end id `2`, and `getIid` is `(5, 2)`,
not `(2, 5)`). -/
theorem C9_getIid_ordered_pair :
    (∀ l : LinkState, Link.getIid l = (l.startNode.id, l.endNode.id)) ∧
    (∀ l : LinkState, Link.getIid l = (Link.getStartNodeId l, Link.getEndNodeId l)) ∧
    Link.getIid unsortedLink = (5, 2) := by
  exact ⟨fun l => rfl, fun l => rfl, rfl⟩

/-- C10: `setLabel` stores its argument unconditionally — `getLabel` then
returns exactly that string, including the empty string — and leaves the
id, start node and end node unchanged; only the constructor substitutes
the default empty label for a falsy (`None` or empty) label argument, and
a truthy label is stored as passed. -/
theorem C10_setLabel_roundtrip (l : LinkState) (s : String) (i : Option Int)
    (sn en : Node) :
    Link.getLabel (Link.setLabel l s) = s ∧
    (Link.setLabel l s).id = l.id ∧
    (Link.setLabel l s).startNode = l.startNode ∧
    (Link.setLabel l s).endNode = l.endNode ∧
    (∀ st, Link.init i (.node sn) (.node en) none = .ok st →
      st.label = Link.DEFAULT_LABEL) ∧
    (∀ st, Link.init i (.node sn) (.node en) (some "") = .ok st →
      st.label = Link.DEFAULT_LABEL) ∧
    (∀ st t, t ≠ "" → Link.init i (.node sn) (.node en) (some t) = .ok st →
      st.label = t) := by
  refine ⟨rfl, rfl, rfl, rfl, ?_, ?_, ?_⟩
  · intro st h
    simp [Link.init] at h
    rw [← h]
    exact rfl
  · intro st h
    simp [Link.init] at h
    rw [← h]
    exact rfl
  · intro st t ht h
    simp [Link.init] at h
    rw [← h]
    simp [Link.resolveLabel, ht]

/-- C10 (witness): `C10_setLabel_roundtrip` at concrete inputs: an
explicitly set empty label round-trips (no default substitution), while
the constructor defaults a `None` label to `""` and stores a nonempty
label verbatim. -/
theorem C10_setLabel_roundtrip_witness :
    Link.getLabel (Link.setLabel baseLink "") = "" ∧
    defaultLabelSt.label = Link.DEFAULT_LABEL ∧
    customLabelSt.label = "x" := by
  obtain ⟨h1, _, _, _, h5, _, h7⟩ :=
    C10_setLabel_roundtrip baseLink "" (some 1) nodeA nodeB
  exact ⟨h1, h5 defaultLabelSt rfl, h7 customLabelSt "x" (by decide) rfl⟩
